import Mathlib

/- Shallow embedding of the LemonSqueezy license manager for VS Code:
   the LicenseManager revision in src/unnamed/part_002 (the one the live
   extension entry point uses: it is the only revision providing
   refreshLicenseState and onLicenseChange, both called from
   src/src/extension.ts), together with
   src/src/offline/OfflineModeManager.ts and src/src/types.ts.
   Timestamps are modeled as integer milliseconds since the Unix epoch,
   matching JavaScript Date.getTime(); all date arithmetic in the source
   is millisecond arithmetic on such values. -/

/-- JavaScript truthiness of a possibly-absent string value, as used by
checks such as `!!licenseKey` and `if (!licenseKey || !instanceId)` in
licenseManager.ts: undefined and the empty string are falsy. -/
def jsTruthy : Option String → Bool
  | none => false
  | some s => decide (s ≠ "")

/-- Character class of the license key regexes in licenseManager.ts:
`[a-zA-Z0-9-]`. -/
def isKeyChar (c : Char) : Bool :=
  (decide ('a' ≤ c) && decide (c ≤ 'z')) ||
  (decide ('A' ≤ c) && decide (c ≤ 'Z')) ||
  (decide ('0' ≤ c) && decide (c ≤ '9')) ||
  decide (c = '-')

/-- ASCII hexadecimal digit, used by the spec-side key shape below. -/
def isHexChar (c : Char) : Bool :=
  (decide ('0' ≤ c) && decide (c ≤ '9')) ||
  (decide ('a' ≤ c) && decide (c ≤ 'f')) ||
  (decide ('A' ≤ c) && decide (c ≤ 'F'))

/-- The local format check of the part_002 LicenseManager
(`licenseKey?.match(/^[a-zA-Z0-9-]{36}$/)`, used both in activateLicense
and in validateLicenseKey): exactly 36 characters, each alphanumeric or
a hyphen. -/
def licenseKeyFormatOk (k : String) : Bool :=
  k.toList.length = 36 && k.toList.all isKeyChar

/-- Modelled from the spec (section 3, for the refinement comparison of
claim C1 only — every executable definition below comes from the
source): the hyphenated hex-group license-key shape
`XXXXXXXX-XXXX-XXXX-XXXX-XXXXXXXXXXXX`, 32 hex characters in 5 groups
separated by hyphens at positions 8, 13, 18 and 23. -/
def specHexGroupShape (k : String) : Bool :=
  let cs := k.toList
  cs.length = 36 &&
  (List.range 36).all (fun i =>
    if i = 8 || i = 13 || i = 18 || i = 23 then
      decide (cs.getD i ' ' = '-')
    else
      isHexChar (cs.getD i ' '))

/-- meta object of every LemonSqueezy response (types.ts
LemonSqueezyMeta). -/
structure LemonSqueezyMeta where
  store_id : Int
  product_id : Int
  customer_id : Int
deriving DecidableEq, Repr

/-- instance object of an activation response (types.ts
LemonSqueezyInstance); only the id is consumed by the manager. -/
structure LemonSqueezyInstance where
  id : String
deriving DecidableEq, Repr

/-- license_key object of a response (types.ts); only expires_at is
consumed by the manager (a nullable ISO string, kept opaque here). -/
structure LicenseKeyInfo where
  status : String
  expires_at : Option String
deriving DecidableEq, Repr

/-- A parsed LemonSqueezy API response body (types.ts
LemonSqueezyResponse). Optional fields are Option; absent means the
JSON field was missing or undefined. -/
structure LemonSqueezyResponse where
  activated : Option Bool
  deactivated : Option Bool
  valid : Option Bool
  error : Option String
  meta : LemonSqueezyMeta
  «instance» : Option LemonSqueezyInstance
  license_key : Option LicenseKeyInfo
deriving DecidableEq, Repr

/-- Result shape returned to callers (types.ts ValidationResponse). -/
structure ValidationResponse where
  success : Bool
  message : String
  data : Option LemonSqueezyResponse := none
deriving DecidableEq, Repr

/-- Outcome of one HTTP exchange, as observed through axios: a parsed
body, an axios error (optional HTTP status, optional error field of the
response body, and the error message), or a non-axios throw. -/
inductive HttpOutcome where
  | ok (r : LemonSqueezyResponse)
  | axiosErr (status : Option Int) (dataError : Option String) (message : String)
  | otherErr
deriving DecidableEq, Repr

/-- The three LemonSqueezy endpoints; operations below report the list
of requests they issued so that absence of network I/O is provable. -/
inductive ApiEndpoint where
  | validate
  | activate
  | deactivate
deriving DecidableEq, Repr

/-- errorTracking section of LicenseConfig (types.ts). -/
structure ErrorTrackingConfig where
  maxErrors : Int
  cleanupInterval : Int
  retainFailedAttempts : Bool
deriving DecidableEq, Repr

/-- offlineMode section of LicenseConfig (types.ts lines 32-36). -/
structure OfflineModeConfig where
  enabled : Bool
  cacheDuration : Int
  maxRetries : Int
deriving DecidableEq, Repr

/-- apiCache section of LicenseConfig (types.ts). -/
structure ApiCacheConfig where
  enabled : Bool
  duration : Int
deriving DecidableEq, Repr

/-- LicenseConfig (types.ts lines 24-41). -/
structure LicenseConfig where
  maxRetries : Int
  retryDelay : Int
  validationInterval : Int
  showNotifications : Bool
  errorTracking : ErrorTrackingConfig
  offlineTolerance : Int
  validateOnStartup : Bool
  offlineMode : OfflineModeConfig
  apiCache : ApiCacheConfig
deriving DecidableEq, Repr

/-- DEFAULT_CONFIG of the part_002 LicenseManager (also the initial
value of its config field, which is the identical literal). -/
def DEFAULT_CONFIG : LicenseConfig where
  maxRetries := 3
  retryDelay := 5000
  validationInterval := 24
  showNotifications := true
  errorTracking := { maxErrors := 100, cleanupInterval := 7, retainFailedAttempts := false }
  offlineTolerance := 72
  validateOnStartup := true
  offlineMode := { enabled := true, cacheDuration := 72, maxRetries := 3 }
  apiCache := { enabled := true, duration := 30 }

/-- The part of a cached LicenseState that the offline checks consult:
both OfflineModeManager.isOfflineValid and
LicenseManager.handleOfflineValidation read only the isLicensed field
of offlineMode.cachedLicenseState. -/
structure CachedLicenseState where
  isLicensed : Bool
deriving DecidableEq, Repr

/-- OfflineMode (types.ts lines 126-130). cachedLicenseState is
non-optional in the TypeScript type but handleOfflineValidation guards
against its absence, so it is Option here; lastOnlineCheck is stored as
an ISO string in the source and modeled as its timestamp. -/
structure OfflineMode where
  enabled : Bool
  lastOnlineCheck : Int
  cachedLicenseState : Option CachedLicenseState
deriving DecidableEq, Repr

/-- The persisted globalState keys the license manager reads and
writes (section 6 of the source README and the update calls in
licenseManager.ts): licenseKey, instanceId, apiData, lastValidated
(ISO timestamp, modeled as Int), validUntil, and the stored offlineMode
struct loaded by initializeCache. none models an undefined/deleted key. -/
structure GlobalStateStore where
  licenseKey : Option String
  instanceId : Option String
  apiData : Option LemonSqueezyResponse
  lastValidated : Option Int
  validUntil : Option String
  offlineMode : Option OfflineMode
deriving DecidableEq, Repr

/-- In-memory state of the part_002 LicenseManager singleton: the
fields consulted by the claims (isLicensed, lastValidationCheck,
offlineMode, config, apiData) plus the persistent store it owns. -/
structure ManagerState where
  globalState : GlobalStateStore
  isLicensed : Bool
  lastValidationCheck : Int
  offlineMode : OfflineMode
  config : LicenseConfig
  apiData : Option LemonSqueezyResponse
deriving DecidableEq, Repr

/-- STORE_ID constant of licenseManager.ts. -/
def STORE_ID : Int := 157343

/-- PRODUCT_ID constant of licenseManager.ts. -/
def PRODUCT_ID : Int := 463516

/-- MIN_VALIDATION_INTERVAL constant of licenseManager.ts: 5 minutes in
milliseconds. -/
def MIN_VALIDATION_INTERVAL : Int := 5 * 60 * 1000

/-- handleOfflineValidation (part_002 lines 826-831): accept the cached
verdict while now is before lastOnlineCheck plus cacheDuration hours
(setHours adds whole hours, 3600000 ms each) and the cached verdict was
licensed. -/
def handleOfflineValidation (om : OfflineMode) (cfg : LicenseConfig) (now : Int) : Bool :=
  match om.cachedLicenseState with
  | none => false
  | some cached =>
    let offlineExpiry := om.lastOnlineCheck + cfg.offlineMode.cacheDuration * 3600000
    decide (now < offlineExpiry) && cached.isLicensed

/-- isOfflineValid (src/src/offline/OfflineModeManager.ts lines 61-74):
reject if offline mode is disabled or the cached verdict is not
licensed, else accept while minutesSinceLastCheck is below
cacheDuration. The source computes (now - lastCheck) / 60000 minutes
and compares it to cacheDuration; the division by the positive constant
is cleared here, giving the same comparison on milliseconds. -/
def isOfflineValid (om : OfflineMode) (cfg : LicenseConfig) (now : Int) : Bool :=
  match om.cachedLicenseState with
  | none => false
  | some cached =>
    if !om.enabled || !cached.isLicensed then
      false
    else
      decide (now - om.lastOnlineCheck < cfg.offlineMode.cacheDuration * 60000)

/-- handleAxiosError (part_002 lines 909-915): axios errors become an
API Error message preferring the response body error field; anything
else becomes a generic failure. -/
def handleAxiosError : HttpOutcome → ValidationResponse
  | .ok _ => { success := false, message := "An unexpected error occurred" }
  | .axiosErr _ dataError message =>
      { success := false, message := "API Error: " ++ (dataError.getD message) }
  | .otherErr => { success := false, message := "An unexpected error occurred" }

/-- List prefix test on characters, building block of containsSub. -/
def listPrefixEq : List Char → List Char → Bool
  | [], _ => true
  | _ :: _, [] => false
  | a :: as, b :: bs => a = b && listPrefixEq as bs

/-- Substring occurrence test on character lists. -/
def listContainsSub (pat : List Char) : List Char → Bool
  | [] => listPrefixEq pat []
  | c :: rest => listPrefixEq pat (c :: rest) || listContainsSub pat rest

/-- JavaScript String.includes, used by makeApiRequest for the
activation-limit message. -/
def containsSub (s pat : String) : Bool :=
  listContainsSub pat.toList s.toList

/-- makeApiRequest (part_002 lines 986-1050): posts and then inspects
the body, translating failure conditions into thrown errors, modeled as
Except.error of the thrown message. checkMeta is true when the endpoint
is validate or activate (the source tests the endpoint URL); the meta
object is non-optional per types.ts, so its check always runs then. -/
def makeApiRequest (checkMeta : Bool) (net : HttpOutcome) : Except String LemonSqueezyResponse :=
  match net with
  | .ok r =>
    match r.error with
    | some e =>
      if containsSub e "activation limit" then
        .error "This license key has reached the activation limit."
      else
        .error e
    | none =>
      if checkMeta && !(r.meta.store_id = STORE_ID) then
        .error "This license key belongs to a different store."
      else if checkMeta && !(r.meta.product_id = PRODUCT_ID) then
        .error "This license key is for a different product."
      else if r.valid = some false then
        .error "Invalid license key. Please check and try again."
      else
        .ok r
  | .axiosErr status dataError message =>
    if status = some 429 then
      .error "Rate limit exceeded. Please try again later."
    else
      match dataError with
      | some e => .error e
      | none =>
        if status = some 404 then
          .error "Invalid license key. Please check and try again."
        else
          .error message
  | .otherErr => .error "An unexpected error occurred while processing your request."

/-- validateLicenseKey (part_002 lines 527-621): local format check,
then one POST to the validate endpoint, then body checks in order:
error field, valid flag, store id, product id. The catch clause maps
HTTP 404 and 429 and other axios errors to specific messages. Returns
the ValidationResponse and the requests issued. -/
def validateLicenseKey (licenseKey : String) (net : HttpOutcome) :
    ValidationResponse × List ApiEndpoint :=
  if !licenseKeyFormatOk licenseKey then
    ({ success := false,
       message := "Invalid license key format. Expected format: XXXXXXXX-XXXX-XXXX-XXXX-XXXXXXXXXXXX" },
     [])
  else
    match net with
    | .ok r =>
      match r.error with
      | some e => ({ success := false, message := e }, [.validate])
      | none =>
        if !(r.valid = some true) then
          ({ success := false, message := "Invalid license key. Please check and try again." },
           [.validate])
        else if !(r.meta.store_id = STORE_ID) then
          ({ success := false, message := "This license key belongs to a different store." },
           [.validate])
        else if !(r.meta.product_id = PRODUCT_ID) then
          ({ success := false, message := "This license key is for a different product." },
           [.validate])
        else
          ({ success := true, message := "License key is valid.", data := some r }, [.validate])
    | .axiosErr status dataError message =>
      if status = some 404 then
        ({ success := false, message := "Invalid license key. Please check and try again." },
         [.validate])
      else if status = some 429 then
        ({ success := false, message := "Too many attempts. Please try again later." },
         [.validate])
      else
        match dataError with
        | some e => ({ success := false, message := e }, [.validate])
        | none => ({ success := false, message := "API Error: " ++ message }, [.validate])
    | .otherErr =>
      ({ success := false, message := "An unexpected error occurred. Please try again." },
       [.validate])

/-- Result triple of activateLicense: the response to the caller, the
manager state afterwards, and the requests issued. -/
structure ActivateOutcome where
  result : ValidationResponse
  state : ManagerState
  requests : List ApiEndpoint
deriving DecidableEq, Repr

/-- activateLicense (part_002 lines 634-719): refuse while a key is
already bound, refuse bad formats locally, validate remotely via
validateLicenseKey, then activate via makeApiRequest. On an activation
body the response is stored as apiData before the error and activated
checks; on success licenseKey, instanceId (the optional instance id of
the response), lastValidated and validUntil (the optional expires_at)
are persisted and isLicensed is set. valNet and actNet are the network
outcomes of the two posts; now is the activation completion time. -/
def activateLicense (m : ManagerState) (licenseKey : String)
    (valNet actNet : HttpOutcome) (now : Int) : ActivateOutcome :=
  if jsTruthy m.globalState.licenseKey then
    let res : ValidationResponse :=
      { success := false,
        message := "A license is already active. Please deactivate the current license before activating a new one." }
    { result := res, state := m, requests := [] }
  else if !licenseKeyFormatOk licenseKey then
    let res : ValidationResponse :=
      { success := false,
        message := "Invalid license key format. Expected format: XXXXXXXX-XXXX-XXXX-XXXX-XXXXXXXXXXXX" }
    { result := res, state := m, requests := [] }
  else
    let validationResult := (validateLicenseKey licenseKey valNet).1
    let valReqs := (validateLicenseKey licenseKey valNet).2
    if !validationResult.success then
      { result := validationResult, state := m, requests := valReqs }
    else
      match makeApiRequest true actNet with
      | .error msg =>
        { result := { success := false, message := msg }, state := m,
          requests := valReqs ++ [.activate] }
      | .ok response =>
        let m1 := { m with
          apiData := some response,
          globalState := { m.globalState with apiData := some response } }
        match response.error with
        | some e =>
          { result := { success := false, message := "Activation failed: " ++ e },
            state := m1, requests := valReqs ++ [.activate] }
        | none =>
          if !(response.activated = some true) then
            let res : ValidationResponse :=
              { success := false, message := "License activation failed. Please try again." }
            { result := res, state := m1, requests := valReqs ++ [.activate] }
          else
            let m2 := { m1 with
              isLicensed := true,
              globalState := { m1.globalState with
                licenseKey := some licenseKey,
                instanceId := response.«instance».map (fun i => i.id),
                lastValidated := some now,
                validUntil := response.license_key.bind (fun lk => lk.expires_at) } }
            let res : ValidationResponse :=
              { success := true, message := "License activated successfully!",
                data := some response }
            { result := res, state := m2, requests := valReqs ++ [.activate] }

/-- Result triple of validateLicense: the boolean verdict, the manager
state afterwards, and the requests issued. -/
structure ValidateOutcome where
  verdict : Bool
  state : ManagerState
  requests : List ApiEndpoint
deriving DecidableEq, Repr

/-- validateLicense (part_002 lines 774-824): with offline mode engaged
the verdict is handleOfflineValidation with no network I/O. Otherwise
the body runs under withRetry, but its network section catches every
throw and returns false, so the operation never throws and withRetry
executes it exactly once. The body is rate limited: within
MIN_VALIDATION_INTERVAL of lastValidationCheck it returns the in-memory
isLicensed without touching the network; past the gate it stamps
lastValidationCheck, requires a stored key and instance id, posts to
the validate endpoint and accepts only a valid response with matching
store and product ids. -/
def validateLicense (m : ManagerState) (now : Int) (net : HttpOutcome) : ValidateOutcome :=
  if m.offlineMode.enabled then
    { verdict := handleOfflineValidation m.offlineMode m.config now, state := m, requests := [] }
  else if now - m.lastValidationCheck < MIN_VALIDATION_INTERVAL then
    { verdict := m.isLicensed, state := m, requests := [] }
  else
    let m1 := { m with lastValidationCheck := now }
    if !jsTruthy m1.globalState.licenseKey || !jsTruthy m1.globalState.instanceId then
      { verdict := false, state := m1, requests := [] }
    else
      match net with
      | .ok r =>
        if r.valid = some true && r.meta.store_id = STORE_ID && r.meta.product_id = PRODUCT_ID then
          { verdict := true,
            state := { m1 with
              isLicensed := true,
              apiData := some r,
              globalState := { m1.globalState with
                apiData := some r, lastValidated := some now } },
            requests := [.validate] }
        else
          { verdict := false, state := { m1 with isLicensed := false }, requests := [.validate] }
      | _ => { verdict := false, state := m1, requests := [.validate] }

/-- The local clearing step of deactivateLicense (part_002 lines
844-849), executed before the remote deactivate request: the persisted
licenseKey, instanceId and apiData are removed, the in-memory apiData
is dropped and isLicensed is lowered. -/
def clearLocalLicenseData (m : ManagerState) : ManagerState :=
  { m with
    isLicensed := false,
    apiData := none,
    globalState := { m.globalState with
      licenseKey := none, instanceId := none, apiData := none } }

/-- Result triple of deactivateLicense. -/
structure DeactivateOutcome where
  result : ValidationResponse
  state : ManagerState
  requests : List ApiEndpoint
deriving DecidableEq, Repr

/-- deactivateLicense (part_002 lines 837-869): requires a stored key
and instance id; clears all local license data first, then posts to the
deactivate endpoint and reports the remote outcome (success in both
body branches, handleAxiosError on a throw). -/
def deactivateLicense (m : ManagerState) (net : HttpOutcome) : DeactivateOutcome :=
  if !jsTruthy m.globalState.licenseKey || !jsTruthy m.globalState.instanceId then
    { result := { success := false, message := "No active license found." },
      state := m, requests := [] }
  else
    let m1 := clearLocalLicenseData m
    let res :=
      match net with
      | .ok r =>
        if r.deactivated = some true then
          ({ success := true, message := "License deactivated successfully!" } : ValidationResponse)
        else
          { success := true,
            message := "Failed to deactivate license but it removed from your entity." }
      | e => handleAxiosError e
    { result := res, state := m1, requests := [.deactivate] }

/-- Result pair of refreshLicenseState (it returns void to its caller). -/
structure RefreshOutcome where
  state : ManagerState
  requests : List ApiEndpoint
deriving DecidableEq, Repr

/-- refreshLicenseState (part_002 lines 400-465): with no stored key or
instance id it lowers isLicensed and clears apiData without network
I/O. Otherwise it posts to the validate endpoint; a response is
accepted only if valid with matching store and product ids and an
instance id equal to the stored one, in which case apiData and
lastValidated (and validUntil when expires_at is present) are
refreshed; an unaccepted response clears every persisted license field;
an HTTP 404 error triggers deactivateLicense (whose own deactivate
request uses the deactNet outcome); any other error keeps the state for
offline usage. -/
def refreshLicenseState (m : ManagerState) (now : Int) (net deactNet : HttpOutcome) :
    RefreshOutcome :=
  if !jsTruthy m.globalState.licenseKey || !jsTruthy m.globalState.instanceId then
    { state := { m with
        isLicensed := false,
        apiData := none,
        globalState := { m.globalState with apiData := none } },
      requests := [] }
  else
    let instId := m.globalState.instanceId.getD ""
    match net with
    | .ok r =>
      let isValid := r.valid = some true && r.meta.store_id = STORE_ID &&
        r.meta.product_id = PRODUCT_ID
      let isInstanceActive := r.«instance».map (fun i => i.id) = some instId
      if isValid && isInstanceActive then
        { state := { m with
            isLicensed := true,
            apiData := some r,
            globalState := { m.globalState with
              apiData := some r,
              lastValidated := some now,
              validUntil :=
                match r.license_key.bind (fun lk => lk.expires_at) with
                | some e => some e
                | none => m.globalState.validUntil } },
          requests := [.validate] }
      else
        { state := { m with
            isLicensed := false,
            apiData := none,
            globalState := { m.globalState with
              apiData := none, licenseKey := none, instanceId := none,
              lastValidated := none, validUntil := none } },
          requests := [.validate] }
    | .axiosErr status _ _ =>
      if status = some 404 then
        let d := deactivateLicense m deactNet
        { state := d.state, requests := [.validate] ++ d.requests }
      else
        { state := m, requests := [.validate] }
    | .otherErr => { state := m, requests := [.validate] }

/-- isFeatureAvailable (part_002 lines 875-877): a pure read of the
in-memory isLicensed flag. -/
def isFeatureAvailable (m : ManagerState) : Bool :=
  m.isLicensed

/-- The slice of getLicenseState (part_002 lines 921-936) the claims
consult. -/
structure LicenseStateSnapshot where
  isLicensed : Bool
  licenseKey : Option String
  instanceId : Option String
  lastValidated : Option Int
  validUntil : Option String
deriving DecidableEq, Repr

/-- getLicenseState (part_002 lines 921-936): reports the in-memory
isLicensed flag together with the persisted key material (the source
maps absent stored values to null with a JavaScript or-null). -/
def getLicenseState (m : ManagerState) : LicenseStateSnapshot :=
  { isLicensed := m.isLicensed,
    licenseKey := m.globalState.licenseKey,
    instanceId := m.globalState.instanceId,
    lastValidated := m.globalState.lastValidated,
    validUntil := m.globalState.validUntil }

/-- The initial in-memory offlineMode literal of the part_002
LicenseManager (lines 343-355): disabled, lastOnlineCheck set to
construction time, with a not-licensed initial cached state. -/
def initialOfflineMode (now : Int) : OfflineMode :=
  { enabled := false,
    lastOnlineCheck := now,
    cachedLicenseState := some { isLicensed := false } }

/-- The synchronous prefix of a refreshLicenseState call (part_002
lines 400-410), the part its body executes before reaching its first
suspension point: with a missing (or empty) stored licenseKey or
instanceId it lowers isLicensed and clears the in-memory apiData, and
issues the awaited persisted apiData clear, before suspending; with
both present it reaches the validate exchange without mutating any
field first. The asynchronous remainder, from the first suspension on,
is modeled by refreshLicenseState. -/
def refreshSyncPrefix (m : ManagerState) : ManagerState :=
  if !jsTruthy m.globalState.licenseKey || !jsTruthy m.globalState.instanceId then
    { m with
      isLicensed := false,
      apiData := none,
      globalState := { m.globalState with apiData := none } }
  else
    m

/-- The part of the part_002 constructor (lines 363-395) that has
completed when construction returns: isLicensed is first set to the
truthiness of the stored licenseKey alone (lines 374-375, no network
response consulted and no instanceId requirement at that point),
apiData is loaded from storage, lastValidationCheck is initialized to
the construction time, initializeCache replaces the in-memory
offlineMode with the stored one when present, and finally the
this.refreshLicenseState() call fired at line 394 runs its synchronous
prefix — an async function body executes up to its first suspension
point before the call returns — which lowers the flag again when no
instanceId is stored. No network response can have been consulted by
the time construction returns; the asynchronous remainder of the
startup refresh is modeled by refreshLicenseState. -/
def constructorInit (gs : GlobalStateStore) (now : Int) : ManagerState :=
  refreshSyncPrefix
    { globalState := gs,
      isLicensed := jsTruthy gs.licenseKey,
      lastValidationCheck := now,
      offlineMode := gs.offlineMode.getD (initialOfflineMode now),
      config := DEFAULT_CONFIG,
      apiData := gs.apiData }

/-- A store with every key absent: the persistent state of a fresh
installation. -/
def emptyGlobalState : GlobalStateStore :=
  { licenseKey := none, instanceId := none, apiData := none,
    lastValidated := none, validUntil := none, offlineMode := none }

/-- The manager of a fresh installation constructed at epoch time 0. -/
def freshState : ManagerState :=
  constructorInit emptyGlobalState 0

/-- A store holding a bound license: the persisted state right after a
successful activation. -/
def boundGlobalState : GlobalStateStore :=
  { licenseKey := some "AAAAAAAA-BBBB-CCCC-DDDD-EEEEEEEEEEEE",
    instanceId := some "i-1",
    apiData := none, lastValidated := none, validUntil := none, offlineMode := none }

/-- A manager constructed at epoch time 0 over the bound store. -/
def boundState : ManagerState :=
  constructorInit boundGlobalState 0

/-- A store holding a license key but no instance id. -/
def keyOnlyGlobalState : GlobalStateStore :=
  { licenseKey := some "AAAAAAAA-BBBB-CCCC-DDDD-EEEEEEEEEEEE",
    instanceId := none,
    apiData := none, lastValidated := none, validUntil := none, offlineMode := none }

/-- Offline state with a licensed cached verdict taken at epoch time 0. -/
def graceOfflineMode : OfflineMode :=
  { enabled := true, lastOnlineCheck := 0,
    cachedLicenseState := some { isLicensed := true } }

/-- Offline state with a not-licensed cached verdict taken at epoch
time 0. -/
def notLicensedOfflineMode : OfflineMode :=
  { enabled := true, lastOnlineCheck := 0,
    cachedLicenseState := some { isLicensed := false } }

/-- meta of a response for the configured store and product. -/
def okMeta : LemonSqueezyMeta :=
  { store_id := 157343, product_id := 463516, customer_id := 1 }

/-- meta of a response from a different store. -/
def wrongStoreMeta : LemonSqueezyMeta :=
  { store_id := 999, product_id := 463516, customer_id := 1 }

/-- A clean valid validate-endpoint response body. -/
def validResponse : LemonSqueezyResponse :=
  { activated := none, deactivated := none, valid := some true, error := none,
    meta := okMeta, «instance» := none, license_key := none }

/-- A clean successful activate-endpoint response body carrying
instance id i-1. -/
def activatedResponse : LemonSqueezyResponse :=
  { activated := some true, deactivated := none, valid := some true, error := none,
    meta := okMeta, «instance» := some { id := "i-1" }, license_key := none }

/-- A clean successful deactivate-endpoint response body. -/
def deactivatedResponse : LemonSqueezyResponse :=
  { activated := none, deactivated := some true, valid := none, error := none,
    meta := okMeta, «instance» := none, license_key := none }

/-- A validate response claiming valid: true but for a different store. -/
def wrongStoreResponse : LemonSqueezyResponse :=
  { validResponse with meta := wrongStoreMeta }

/-- C10 counterexample: with a licenseKey stored but no instanceId, the
in-memory isLicensed flag is false once construction completes — line
375 raises it from the key alone, but the synchronous prefix of the
startup refresh fired at line 394 lowers it again before the
constructor returns — so the claim that the flag is set to true exactly
when a stored key exists, with no instanceId check, is false at this
input, and isFeatureAvailable does not return true after this restart
although a stored key exists. -/
theorem constructorInit_key_without_instance_counterexample :
    jsTruthy keyOnlyGlobalState.licenseKey = true ∧
    keyOnlyGlobalState.instanceId = none ∧
    (constructorInit keyOnlyGlobalState 0).isLicensed = false ∧
    isFeatureAvailable (constructorInit keyOnlyGlobalState 0) = false := by
  refine ⟨by decide, by decide, by decide, by decide⟩

/-- C10 amended: at constructor return the in-memory isLicensed flag —
and with it isFeatureAvailable — is true exactly when both a licenseKey
and an instanceId are present (truthy) in persistent storage, still
with no network response consulted: line 375 sets the flag from the
stored key alone, and the synchronously executed prefix of the startup
refreshLicenseState call then lowers it when the instanceId is
missing. -/
theorem constructorInit_isLicensed_iff_key_and_instance (gs : GlobalStateStore) (now : Int) :
    (constructorInit gs now).isLicensed =
      (jsTruthy gs.licenseKey && jsTruthy gs.instanceId) ∧
    isFeatureAvailable (constructorInit gs now) =
      (jsTruthy gs.licenseKey && jsTruthy gs.instanceId) := by
  by_cases hk : jsTruthy gs.licenseKey <;> by_cases hi : jsTruthy gs.instanceId <;>
    simp [constructorInit, refreshSyncPrefix, isFeatureAvailable, hk, hi]

/-- C4: while a license key is already bound in persistent storage,
activateLicense with any key fails immediately, issues no request, and
leaves the whole manager state (bound key and instance included)
unchanged. -/
theorem activateLicense_already_bound_guard (m : ManagerState) (key : String)
    (valNet actNet : HttpOutcome) (now : Int)
    (h : jsTruthy m.globalState.licenseKey = true) :
    (activateLicense m key valNet actNet now).result.success = false ∧
    (activateLicense m key valNet actNet now).state = m ∧
    (activateLicense m key valNet actNet now).requests = [] := by
  simp [activateLicense, h]

/-- C4 witness: the guard observed on the concrete bound manager. -/
theorem activateLicense_already_bound_guard_witness :
    jsTruthy boundState.globalState.licenseKey = true ∧
    ((activateLicense boundState "00000000-0000-0000-0000-000000000000" .otherErr .otherErr 0).result.success = false ∧
     (activateLicense boundState "00000000-0000-0000-0000-000000000000" .otherErr .otherErr 0).state = boundState ∧
     (activateLicense boundState "00000000-0000-0000-0000-000000000000" .otherErr .otherErr 0).requests = []) :=
  ⟨by decide,
   activateLicense_already_bound_guard boundState "00000000-0000-0000-0000-000000000000"
     .otherErr .otherErr 0 (by decide)⟩

/-- C5: with a bound key and instance id, deactivateLicense puts the
manager into exactly the locally cleared state — persisted licenseKey,
instanceId and apiData removed, isLicensed false, features gated off —
and this final state is the same for every remote outcome (success,
refusal body, HTTP error or transport error), because the local clear
precedes the single deactivate request. -/
theorem deactivateLicense_optimistic_local_clear (m : ManagerState) (net : HttpOutcome)
    (hk : jsTruthy m.globalState.licenseKey = true)
    (hi : jsTruthy m.globalState.instanceId = true) :
    (deactivateLicense m net).state = clearLocalLicenseData m ∧
    (deactivateLicense m net).state.globalState.licenseKey = none ∧
    (deactivateLicense m net).state.globalState.instanceId = none ∧
    (deactivateLicense m net).state.globalState.apiData = none ∧
    (deactivateLicense m net).state.isLicensed = false ∧
    isFeatureAvailable (deactivateLicense m net).state = false ∧
    (deactivateLicense m net).requests = [.deactivate] := by
  simp [deactivateLicense, hk, hi, clearLocalLicenseData, isFeatureAvailable]

/-- C5 witness: the concrete bound manager cleared under a transport
error outcome. -/
theorem deactivateLicense_optimistic_local_clear_witness :
    (jsTruthy boundState.globalState.licenseKey = true ∧
     jsTruthy boundState.globalState.instanceId = true) ∧
    ((deactivateLicense boundState .otherErr).state = clearLocalLicenseData boundState ∧
     (deactivateLicense boundState .otherErr).state.globalState.licenseKey = none ∧
     (deactivateLicense boundState .otherErr).state.globalState.instanceId = none ∧
     (deactivateLicense boundState .otherErr).state.globalState.apiData = none ∧
     (deactivateLicense boundState .otherErr).state.isLicensed = false ∧
     isFeatureAvailable (deactivateLicense boundState .otherErr).state = false ∧
     (deactivateLicense boundState .otherErr).requests = [.deactivate]) :=
  ⟨⟨by decide, by decide⟩,
   deactivateLicense_optimistic_local_clear boundState .otherErr (by decide) (by decide)⟩

/-- C2: with cacheDuration configured as 72 (hours) and a licensed
verdict cached at the moment lastOnlineCheck, the offline-acceptability
check the manager runs (handleOfflineValidation) accepts at 71 hours 59
minutes after that moment and rejects at 72 hours 1 minute after it. -/
theorem handleOfflineValidation_grace_boundary (om : OfflineMode) (cfg : LicenseConfig)
    (cached : CachedLicenseState)
    (hdur : cfg.offlineMode.cacheDuration = 72)
    (hc : om.cachedLicenseState = some cached)
    (hlic : cached.isLicensed = true) :
    handleOfflineValidation om cfg (om.lastOnlineCheck + (71 * 3600000 + 59 * 60000)) = true ∧
    handleOfflineValidation om cfg (om.lastOnlineCheck + (72 * 3600000 + 60000)) = false := by
  refine ⟨?_, ?_⟩ <;> simp [handleOfflineValidation, hc, hlic, hdur]

/-- C2 witness: the boundary observed with the default configuration
and a licensed verdict cached at epoch time 0. -/
theorem handleOfflineValidation_grace_boundary_witness :
    (DEFAULT_CONFIG.offlineMode.cacheDuration = 72 ∧
     graceOfflineMode.cachedLicenseState = some { isLicensed := true } ∧
     (true : Bool) = true) ∧
    (handleOfflineValidation graceOfflineMode DEFAULT_CONFIG
       (graceOfflineMode.lastOnlineCheck + (71 * 3600000 + 59 * 60000)) = true ∧
     handleOfflineValidation graceOfflineMode DEFAULT_CONFIG
       (graceOfflineMode.lastOnlineCheck + (72 * 3600000 + 60000)) = false) :=
  ⟨⟨by decide, by decide, by decide⟩,
   handleOfflineValidation_grace_boundary graceOfflineMode DEFAULT_CONFIG
     { isLicensed := true } (by decide) (by decide) (by decide)⟩

/-- C3: a cached verdict with isLicensed false never makes either
offline-acceptability check true: for every elapsed time (any now and
lastOnlineCheck) and every enabled flag, both the manager's
handleOfflineValidation and OfflineModeManager.isOfflineValid return
false. -/
theorem offline_fail_closed_not_licensed (om : OfflineMode) (cfg : LicenseConfig) (now : Int)
    (cached : CachedLicenseState)
    (hc : om.cachedLicenseState = some cached)
    (hlic : cached.isLicensed = false) :
    handleOfflineValidation om cfg now = false ∧
    isOfflineValid om cfg now = false := by
  refine ⟨?_, ?_⟩ <;> simp [handleOfflineValidation, isOfflineValid, hc, hlic]

/-- C3 witness: a not-licensed cached verdict rejected by both checks
very long after, and also immediately at, the cache moment. -/
theorem offline_fail_closed_not_licensed_witness :
    (notLicensedOfflineMode.cachedLicenseState = some { isLicensed := false } ∧
     (false : Bool) = false) ∧
    (handleOfflineValidation notLicensedOfflineMode DEFAULT_CONFIG 0 = false ∧
     isOfflineValid notLicensedOfflineMode DEFAULT_CONFIG 0 = false) :=
  ⟨⟨by decide, by decide⟩,
   offline_fail_closed_not_licensed notLicensedOfflineMode DEFAULT_CONFIG 0
     { isLicensed := false } (by decide) (by decide)⟩

/-- C9: with a bound key and instance id, a validate exchange that
fails with HTTP 404 during refreshLicenseState clears the persisted
licenseKey, instanceId and cached apiData (through the deactivation it
triggers) and leaves the manager unlicensed, whatever the outcome of
the deactivate request itself. -/
theorem refreshLicenseState_404_clears_state (m : ManagerState) (now : Int)
    (dataError : Option String) (msg : String) (deactNet : HttpOutcome)
    (hk : jsTruthy m.globalState.licenseKey = true)
    (hi : jsTruthy m.globalState.instanceId = true) :
    (refreshLicenseState m now (.axiosErr (some 404) dataError msg) deactNet).state.globalState.licenseKey = none ∧
    (refreshLicenseState m now (.axiosErr (some 404) dataError msg) deactNet).state.globalState.instanceId = none ∧
    (refreshLicenseState m now (.axiosErr (some 404) dataError msg) deactNet).state.globalState.apiData = none ∧
    (refreshLicenseState m now (.axiosErr (some 404) dataError msg) deactNet).state.apiData = none ∧
    (refreshLicenseState m now (.axiosErr (some 404) dataError msg) deactNet).state.isLicensed = false := by
  simp [refreshLicenseState, deactivateLicense, hk, hi, clearLocalLicenseData]

/-- C9 witness: the concrete bound manager fully cleared by a 404
validate outcome, with the follow-up deactivate request itself failing
with a transport error. -/
theorem refreshLicenseState_404_clears_state_witness :
    (jsTruthy boundState.globalState.licenseKey = true ∧
     jsTruthy boundState.globalState.instanceId = true) ∧
    ((refreshLicenseState boundState 0 (.axiosErr (some 404) none "Request failed with status code 404") .otherErr).state.globalState.licenseKey = none ∧
     (refreshLicenseState boundState 0 (.axiosErr (some 404) none "Request failed with status code 404") .otherErr).state.globalState.instanceId = none ∧
     (refreshLicenseState boundState 0 (.axiosErr (some 404) none "Request failed with status code 404") .otherErr).state.globalState.apiData = none ∧
     (refreshLicenseState boundState 0 (.axiosErr (some 404) none "Request failed with status code 404") .otherErr).state.apiData = none ∧
     (refreshLicenseState boundState 0 (.axiosErr (some 404) none "Request failed with status code 404") .otherErr).state.isLicensed = false) :=
  ⟨⟨by decide, by decide⟩,
   refreshLicenseState_404_clears_state boundState 0 none
     "Request failed with status code 404" .otherErr (by decide) (by decide)⟩

/-- Helper for C8: against a parsed validate response whose store id or
product id differs from the configured constants, validateLicenseKey
never succeeds, whatever the key and the rest of the body. -/
theorem validateLicenseKey_mismatch_fails (key : String) (r : LemonSqueezyResponse)
    (hmis : ¬ (r.meta.store_id = STORE_ID ∧ r.meta.product_id = PRODUCT_ID)) :
    (validateLicenseKey key (.ok r)).1.success = false := by
  by_cases hf : licenseKeyFormatOk key
  · cases he : r.error with
    | some e => simp [validateLicenseKey, hf, he]
    | none =>
      by_cases hv : r.valid = some true
      · by_cases hs : r.meta.store_id = STORE_ID
        · have hp : ¬ r.meta.product_id = PRODUCT_ID := fun hp => hmis ⟨hs, hp⟩
          simp [validateLicenseKey, hf, he, hv, hs, hp]
        · simp [validateLicenseKey, hf, he, hv, hs]
      · simp [validateLicenseKey, hf, he, hv]
  · simp [validateLicenseKey, hf]

/-- C8: a store id or product id mismatch in the authority response is
never accepted — activateLicense fails (for every manager state, key
and follow-up activation outcome) and validateLicense, reached online
past the rate gate with a stored key and instance id, returns false and
lowers isLicensed, even though the response may carry valid true. -/
theorem store_product_mismatch_not_licensed
    (ma mv : ManagerState) (key : String) (actNet : HttpOutcome)
    (r : LemonSqueezyResponse) (nowA nowV : Int)
    (hmis : ¬ (r.meta.store_id = STORE_ID ∧ r.meta.product_id = PRODUCT_ID))
    (hoff : mv.offlineMode.enabled = false)
    (hgate : MIN_VALIDATION_INTERVAL ≤ nowV - mv.lastValidationCheck)
    (hk : jsTruthy mv.globalState.licenseKey = true)
    (hi : jsTruthy mv.globalState.instanceId = true) :
    (activateLicense ma key (.ok r) actNet nowA).result.success = false ∧
    (validateLicense mv nowV (.ok r)).verdict = false ∧
    (validateLicense mv nowV (.ok r)).state.isLicensed = false := by
  have hgate2 : ¬ (nowV - mv.lastValidationCheck < MIN_VALIDATION_INTERVAL) := by omega
  have hvk : (validateLicenseKey key (.ok r)).1.success = false :=
    validateLicenseKey_mismatch_fails key r hmis
  refine ⟨?_, ?_, ?_⟩
  · by_cases hb : jsTruthy ma.globalState.licenseKey
    · simp [activateLicense, hb]
    · by_cases hf : licenseKeyFormatOk key
      · simp [activateLicense, hb, hf, hvk]
      · simp [activateLicense, hb, hf]
  · by_cases hs : r.meta.store_id = STORE_ID
    · have hp : ¬ r.meta.product_id = PRODUCT_ID := fun hp => hmis ⟨hs, hp⟩
      simp [validateLicense, hoff, hgate2, hk, hi, hs, hp]
    · simp [validateLicense, hoff, hgate2, hk, hi, hs]
  · by_cases hs : r.meta.store_id = STORE_ID
    · have hp : ¬ r.meta.product_id = PRODUCT_ID := fun hp => hmis ⟨hs, hp⟩
      simp [validateLicense, hoff, hgate2, hk, hi, hs, hp]
    · simp [validateLicense, hoff, hgate2, hk, hi, hs]

/-- C8 witness: on the fresh manager state with the rate gate moved
past and a bound key, a valid-true response for a different store is
rejected by both entry points. -/
theorem store_product_mismatch_not_licensed_witness :
    (¬ (wrongStoreResponse.meta.store_id = STORE_ID ∧
        wrongStoreResponse.meta.product_id = PRODUCT_ID) ∧
     boundState.offlineMode.enabled = false ∧
     MIN_VALIDATION_INTERVAL ≤ (300000 : Int) - boundState.lastValidationCheck ∧
     jsTruthy boundState.globalState.licenseKey = true ∧
     jsTruthy boundState.globalState.instanceId = true ∧
     wrongStoreResponse.valid = some true) ∧
    ((activateLicense freshState "AAAAAAAA-BBBB-CCCC-DDDD-EEEEEEEEEEEE" (.ok wrongStoreResponse) .otherErr 0).result.success = false ∧
     (validateLicense boundState 300000 (.ok wrongStoreResponse)).verdict = false ∧
     (validateLicense boundState 300000 (.ok wrongStoreResponse)).state.isLicensed = false) :=
  ⟨⟨by decide, by decide, by decide, by decide, by decide, by decide⟩,
   store_product_mismatch_not_licensed freshState boundState
     "AAAAAAAA-BBBB-CCCC-DDDD-EEEEEEEEEEEE" .otherErr wrongStoreResponse 0 300000
     (by decide) (by decide) (by decide) (by decide) (by decide)⟩

/-- C1 counterexample: a 36-character key of letters g is not of the
hyphenated hex-group shape the spec requires, yet activateLicense on a
fresh manager does not reject it locally — it issues the validate
request, so the claim that every key outside that shape is refused with
no network call is false on the code (the local check only constrains
the character class and the length). -/
theorem activateLicense_hexGroup_counterexample :
    specHexGroupShape "gggggggggggggggggggggggggggggggggggg" = false ∧
    licenseKeyFormatOk "gggggggggggggggggggggggggggggggggggg" = true ∧
    (activateLicense freshState "gggggggggggggggggggggggggggggggggggg"
      .otherErr .otherErr 0).requests = [.validate] := by
  refine ⟨by decide, by decide, by decide⟩

/-- C1 amended: for every input key that fails the format check the
code actually applies — exactly 36 characters, each alphanumeric or a
hyphen — activateLicense returns a failure result and performs no
network call, from any manager state. -/
theorem activateLicense_formatCheck_local_reject (m : ManagerState) (key : String)
    (valNet actNet : HttpOutcome) (now : Int)
    (hfmt : licenseKeyFormatOk key = false) :
    (activateLicense m key valNet actNet now).result.success = false ∧
    (activateLicense m key valNet actNet now).requests = [] := by
  by_cases hb : jsTruthy m.globalState.licenseKey <;>
    simp [activateLicense, hb, hfmt]

/-- C1 witness: a short malformed key rejected locally on the fresh
manager. -/
theorem activateLicense_formatCheck_local_reject_witness :
    licenseKeyFormatOk "not-a-key" = false ∧
    ((activateLicense freshState "not-a-key" .otherErr .otherErr 0).result.success = false ∧
     (activateLicense freshState "not-a-key" .otherErr .otherErr 0).requests = []) :=
  ⟨by decide,
   activateLicense_formatCheck_local_reject freshState "not-a-key" .otherErr .otherErr 0
     (by decide)⟩

/-- C6 counterexample: two validateLicense calls one minute apart (well
within MIN_VALIDATION_INTERVAL) on a fresh manager — offline mode
disabled, rate gate open for the first call — perform zero network
calls in total, not exactly one: with no stored key the live check is
skipped before any request is issued, so the claimed count is false at
this input. -/
theorem validateLicense_exactly_one_call_counterexample :
    (660000 : Int) - 600000 < MIN_VALIDATION_INTERVAL ∧
    freshState.offlineMode.enabled = false ∧
    ((validateLicense freshState 600000 .otherErr).requests ++
     (validateLicense (validateLicense freshState 600000 .otherErr).state
        660000 .otherErr).requests).length = 0 := by
  refine ⟨by decide, by decide, by decide⟩

/-- Helper for C6: a call inside the rate window with offline mode
disabled returns the in-memory verdict and changes nothing, issuing no
request. -/
theorem validateLicense_gated (m : ManagerState) (now : Int) (net : HttpOutcome)
    (hoff : m.offlineMode.enabled = false)
    (hg : now - m.lastValidationCheck < MIN_VALIDATION_INTERVAL) :
    validateLicense m now net =
      { verdict := m.isLicensed, state := m, requests := [] } := by
  simp [validateLicense, hoff, hg]

/-- Helper for C6: once the rate gate and offline mode are out of the
way and key material is stored, one call issues exactly the one
validate request, stamps lastValidationCheck with the call time and
keeps the offlineMode struct. -/
theorem validateLicense_open_call (m : ManagerState) (now : Int) (net : HttpOutcome)
    (hoff : m.offlineMode.enabled = false)
    (hgate : ¬ (now - m.lastValidationCheck < MIN_VALIDATION_INTERVAL))
    (hk : jsTruthy m.globalState.licenseKey = true)
    (hi : jsTruthy m.globalState.instanceId = true) :
    (validateLicense m now net).requests = [.validate] ∧
    (validateLicense m now net).state.lastValidationCheck = now ∧
    (validateLicense m now net).state.offlineMode = m.offlineMode := by
  cases net with
  | ok r =>
    by_cases hacc : (r.valid = some true ∧ r.meta.store_id = STORE_ID ∧
        r.meta.product_id = PRODUCT_ID)
    · simp [validateLicense, hoff, hgate, hk, hi, hacc.1, hacc.2.1, hacc.2.2]
    · by_cases hv : r.valid = some true
      · by_cases hs : r.meta.store_id = STORE_ID
        · have hp : ¬ r.meta.product_id = PRODUCT_ID := fun hp => hacc ⟨hv, hs, hp⟩
          simp [validateLicense, hoff, hgate, hk, hi, hv, hs, hp]
        · simp [validateLicense, hoff, hgate, hk, hi, hv, hs]
      · simp [validateLicense, hoff, hgate, hk, hi, hv]
  | axiosErr status dataError message =>
    simp [validateLicense, hoff, hgate, hk, hi]
  | otherErr =>
    simp [validateLicense, hoff, hgate, hk, hi]

/-- Helper for C6: every validateLicense call either issues no request
at all, or issues exactly the one validate request — and in the latter
case it has passed the rate gate and the offline check, so its
resulting state carries lastValidationCheck stamped with the call time
and a disabled offlineMode. -/
theorem validateLicense_requests_cases (m : ManagerState) (now : Int) (net : HttpOutcome) :
    (validateLicense m now net).requests = [] ∨
    ((validateLicense m now net).requests = [.validate] ∧
     (validateLicense m now net).state.lastValidationCheck = now ∧
     (validateLicense m now net).state.offlineMode.enabled = false) := by
  by_cases ho : m.offlineMode.enabled = true
  · left
    simp [validateLicense, ho]
  · have hoF : m.offlineMode.enabled = false := by
      revert ho; cases m.offlineMode.enabled <;> simp
    by_cases hg : now - m.lastValidationCheck < MIN_VALIDATION_INTERVAL
    · left
      simp [validateLicense, ho, hg]
    · by_cases hki : jsTruthy m.globalState.licenseKey = false ∨
          jsTruthy m.globalState.instanceId = false
      · left
        simp [validateLicense, ho, hg, hki]
      · rw [not_or] at hki
        have hk : jsTruthy m.globalState.licenseKey = true := by
          revert hki; cases jsTruthy m.globalState.licenseKey <;> simp
        have hi : jsTruthy m.globalState.instanceId = true := by
          revert hki; cases jsTruthy m.globalState.instanceId <;> simp
        right
        obtain ⟨h1, h2, h3⟩ := validateLicense_open_call m now net hoF hg hk hi
        exact ⟨h1, h2, by rw [h3]; exact hoF⟩

/-- C6 amended: two validateLicense calls separated by less than
MIN_VALIDATION_INTERVAL perform at most one network validation call in
total, for every manager state and pair of network outcomes; and when
offline mode is disabled, a key and instance id are stored and the
first call comes at least MIN_VALIDATION_INTERVAL after the previous
check, exactly one is performed — issued by the first call — while the
second call issues no request and returns the in-memory verdict left by
the first call. -/
theorem validateLicense_rate_limit_collapse (m : ManagerState) (t1 t2 : Int)
    (net1 net2 : HttpOutcome)
    (hclose : t2 - t1 < MIN_VALIDATION_INTERVAL) :
    ((validateLicense m t1 net1).requests ++
     (validateLicense (validateLicense m t1 net1).state t2 net2).requests).length ≤ 1 ∧
    (m.offlineMode.enabled = false →
     jsTruthy m.globalState.licenseKey = true →
     jsTruthy m.globalState.instanceId = true →
     MIN_VALIDATION_INTERVAL ≤ t1 - m.lastValidationCheck →
     (validateLicense m t1 net1).requests = [.validate] ∧
     (validateLicense (validateLicense m t1 net1).state t2 net2).requests = [] ∧
     (validateLicense (validateLicense m t1 net1).state t2 net2).verdict =
       (validateLicense m t1 net1).state.isLicensed) := by
  constructor
  · rcases validateLicense_requests_cases m t1 net1 with h0 | ⟨hq1, hstamp, hoffd⟩
    · rw [h0]
      rcases validateLicense_requests_cases ((validateLicense m t1 net1).state) t2 net2 with
        h2 | ⟨h2, _, _⟩ <;> simp [h2]
    · have h2 := validateLicense_gated ((validateLicense m t1 net1).state) t2 net2 hoffd
        (by rw [hstamp]; exact hclose)
      rw [hq1, h2]
      simp
  · intro hoff hk hi hgate
    have hgate2 : ¬ (t1 - m.lastValidationCheck < MIN_VALIDATION_INTERVAL) := by omega
    obtain ⟨hreq, hstamp, hom⟩ := validateLicense_open_call m t1 net1 hoff hgate2 hk hi
    have hoff2 : (validateLicense m t1 net1).state.offlineMode.enabled = false := by
      rw [hom]; exact hoff
    have hclose2 : t2 - (validateLicense m t1 net1).state.lastValidationCheck <
        MIN_VALIDATION_INTERVAL := by
      rw [hstamp]; exact hclose
    have h2 := validateLicense_gated ((validateLicense m t1 net1).state) t2 net2 hoff2 hclose2
    refine ⟨hreq, ?_, ?_⟩ <;> rw [h2]

/-- C6 witness: on the concrete bound manager, a first call at five
minutes and a second thirty seconds later stay within one request in
total; with the rate gate open, offline mode disabled and credentials
stored, the first call issues the one validate request and the second
issues none, returning the in-memory verdict. -/
theorem validateLicense_rate_limit_collapse_witness :
    ((330000 : Int) - 300000 < MIN_VALIDATION_INTERVAL) ∧
    (((validateLicense boundState 300000 .otherErr).requests ++
      (validateLicense (validateLicense boundState 300000 .otherErr).state
         330000 .otherErr).requests).length ≤ 1 ∧
     (boundState.offlineMode.enabled = false →
      jsTruthy boundState.globalState.licenseKey = true →
      jsTruthy boundState.globalState.instanceId = true →
      MIN_VALIDATION_INTERVAL ≤ (300000 : Int) - boundState.lastValidationCheck →
      (validateLicense boundState 300000 .otherErr).requests = [.validate] ∧
      (validateLicense (validateLicense boundState 300000 .otherErr).state
         330000 .otherErr).requests = [] ∧
      (validateLicense (validateLicense boundState 300000 .otherErr).state
         330000 .otherErr).verdict =
        (validateLicense boundState 300000 .otherErr).state.isLicensed)) :=
  ⟨by decide,
   validateLicense_rate_limit_collapse boundState 300000 330000 .otherErr .otherErr
     (by decide)⟩

/-- C7: round trip. From an unbound state, an activateLicense whose
validate response is valid for the configured store and product and
whose activate response reports activated with an instance id,
succeeds; afterwards getLicenseState reports the activated key and
isFeatureAvailable is true. A subsequent deactivateLicense whose remote
outcome reports deactivated succeeds, after which isFeatureAvailable is
false and the persisted licenseKey and instanceId are cleared. -/
theorem activate_deactivate_round_trip (m : ManagerState) (key : String)
    (r1 r2 rd : LemonSqueezyResponse) (inst : LemonSqueezyInstance) (now1 : Int)
    (hub : jsTruthy m.globalState.licenseKey = false)
    (hfmt : licenseKeyFormatOk key = true)
    (h1e : r1.error = none) (h1v : r1.valid = some true)
    (h1s : r1.meta.store_id = STORE_ID) (h1p : r1.meta.product_id = PRODUCT_ID)
    (h2e : r2.error = none) (h2v : ¬ r2.valid = some false)
    (h2s : r2.meta.store_id = STORE_ID) (h2p : r2.meta.product_id = PRODUCT_ID)
    (h2a : r2.activated = some true) (h2i : r2.«instance» = some inst)
    (hinst : inst.id ≠ "") (hd : rd.deactivated = some true) :
    (activateLicense m key (.ok r1) (.ok r2) now1).result.success = true ∧
    (getLicenseState (activateLicense m key (.ok r1) (.ok r2) now1).state).licenseKey = some key ∧
    isFeatureAvailable (activateLicense m key (.ok r1) (.ok r2) now1).state = true ∧
    (deactivateLicense (activateLicense m key (.ok r1) (.ok r2) now1).state (.ok rd)).result.success = true ∧
    isFeatureAvailable (deactivateLicense (activateLicense m key (.ok r1) (.ok r2) now1).state (.ok rd)).state = false ∧
    (deactivateLicense (activateLicense m key (.ok r1) (.ok r2) now1).state (.ok rd)).state.globalState.licenseKey = none ∧
    (deactivateLicense (activateLicense m key (.ok r1) (.ok r2) now1).state (.ok rd)).state.globalState.instanceId = none := by
  have hkey0 : key ≠ "" := by
    intro h
    rw [h] at hfmt
    simp [licenseKeyFormatOk] at hfmt
  have hval : (validateLicenseKey key (.ok r1)).1.success = true := by
    simp [validateLicenseKey, hfmt, h1e, h1v, h1s, h1p]
  have hmk : makeApiRequest true (.ok r2) = .ok r2 := by
    simp [makeApiRequest, h2e, h2s, h2p, h2v]
  have hjk : jsTruthy (some key) = true := by simp [jsTruthy, hkey0]
  have hji : jsTruthy (some inst.id) = true := by simp [jsTruthy, hinst]
  refine ⟨?_, ?_, ?_, ?_, ?_, ?_, ?_⟩ <;>
    simp [activateLicense, hub, hfmt, hval, hmk, h2e, h2a, h2i,
      getLicenseState, isFeatureAvailable, deactivateLicense,
      clearLocalLicenseData, hjk, hji, hd]

/-- C7 witness: the round trip on a fresh manager with clean authority
responses, matching the spec scenario with key
AAAAAAAA-BBBB-CCCC-DDDD-EEEEEEEEEEEE and instance id i-1. -/
theorem activate_deactivate_round_trip_witness :
    (jsTruthy freshState.globalState.licenseKey = false ∧
     licenseKeyFormatOk "AAAAAAAA-BBBB-CCCC-DDDD-EEEEEEEEEEEE" = true ∧
     validResponse.error = none ∧ validResponse.valid = some true ∧
     validResponse.meta.store_id = STORE_ID ∧
     validResponse.meta.product_id = PRODUCT_ID ∧
     activatedResponse.error = none ∧ ¬ activatedResponse.valid = some false ∧
     activatedResponse.meta.store_id = STORE_ID ∧
     activatedResponse.meta.product_id = PRODUCT_ID ∧
     activatedResponse.activated = some true ∧
     activatedResponse.«instance» = some { id := "i-1" } ∧
     ("i-1" : String) ≠ "" ∧ deactivatedResponse.deactivated = some true) ∧
    ((activateLicense freshState "AAAAAAAA-BBBB-CCCC-DDDD-EEEEEEEEEEEE" (.ok validResponse) (.ok activatedResponse) 0).result.success = true ∧
     (getLicenseState (activateLicense freshState "AAAAAAAA-BBBB-CCCC-DDDD-EEEEEEEEEEEE" (.ok validResponse) (.ok activatedResponse) 0).state).licenseKey = some "AAAAAAAA-BBBB-CCCC-DDDD-EEEEEEEEEEEE" ∧
     isFeatureAvailable (activateLicense freshState "AAAAAAAA-BBBB-CCCC-DDDD-EEEEEEEEEEEE" (.ok validResponse) (.ok activatedResponse) 0).state = true ∧
     (deactivateLicense (activateLicense freshState "AAAAAAAA-BBBB-CCCC-DDDD-EEEEEEEEEEEE" (.ok validResponse) (.ok activatedResponse) 0).state (.ok deactivatedResponse)).result.success = true ∧
     isFeatureAvailable (deactivateLicense (activateLicense freshState "AAAAAAAA-BBBB-CCCC-DDDD-EEEEEEEEEEEE" (.ok validResponse) (.ok activatedResponse) 0).state (.ok deactivatedResponse)).state = false ∧
     (deactivateLicense (activateLicense freshState "AAAAAAAA-BBBB-CCCC-DDDD-EEEEEEEEEEEE" (.ok validResponse) (.ok activatedResponse) 0).state (.ok deactivatedResponse)).state.globalState.licenseKey = none ∧
     (deactivateLicense (activateLicense freshState "AAAAAAAA-BBBB-CCCC-DDDD-EEEEEEEEEEEE" (.ok validResponse) (.ok activatedResponse) 0).state (.ok deactivatedResponse)).state.globalState.instanceId = none) :=
  ⟨⟨by decide, by decide, by decide, by decide, by decide, by decide, by decide,
    by decide, by decide, by decide, by decide, by decide, by decide, by decide⟩,
   activate_deactivate_round_trip freshState "AAAAAAAA-BBBB-CCCC-DDDD-EEEEEEEEEEEE"
     validResponse activatedResponse deactivatedResponse { id := "i-1" } 0
     (by decide) (by decide) (by decide) (by decide) (by decide) (by decide)
     (by decide) (by decide) (by decide) (by decide) (by decide) (by decide)
     (by decide) (by decide)⟩
